import Mathlib

/-!
Verification of the sentiment-aggregation pipeline of a YouTube comment
sentiment dashboard.

The embedding follows the source files:
  * `sentiment.py`        — thresholds and the labelling logic of `score_comment`;
  * `streamlit_app.py`    — `analyze_video_sentiment` (comment filtering, scoring,
    24-hour time-bucketing, aggregate totals) and the trend-direction part of
    `generate_overall_analysis`;
  * `youtube_api.py`      — `extract_video_id` and the retry loops of
    `get_trending_videos` and `get_video_comments`.

External collaborators are modelled as parameters:
  * the VADER analyzer `polarity_scores` is a function `compoundOf : String → ℚ`
    giving the compound score of a text (float arithmetic is modelled as exact
    rational arithmetic throughout);
  * the standard-library timestamp parser `datetime.fromisoformat` is a function
    `parse : String → Option ℤ` giving the epoch-second instant of a string, or
    `none` when parsing fails; a concrete instance `parseTimestamp` for the
    UTC format used by the API is provided below for concrete evaluations.

Aware UTC datetimes are modelled as epoch seconds (`ℤ`); `timedelta(hours=n)` is
`3600 * n`, and `replace(minute=0, second=0, microsecond=0)` is `hourFloor`.
-/

/-- `THRESH_POS = 0.05` from `sentiment.py` line 6. -/
def THRESH_POS : ℚ := 5 / 100

/-- `THRESH_NEG = -0.05` from `sentiment.py` line 7. -/
def THRESH_NEG : ℚ := -(5 / 100)

/-- The labelling logic of `score_comment` (`sentiment.py` lines 23-27):
`label = "neutral"`, overwritten to `"positive"` when `compound >= THRESH_POS`,
else to `"negative"` when `compound <= THRESH_NEG`. -/
def scoreLabel (compound : ℚ) : String :=
  if compound ≥ THRESH_POS then "positive"
  else if compound ≤ THRESH_NEG then "negative"
  else "neutral"

/-- A scored comment: the `compound` field of the analyzer output together with
the derived label (`sentiment.py` line 28 returns `{**s, "label": label}`; the
other polarity fields are never read by the aggregator). -/
structure Score where
  compound : ℚ
  label : String
deriving DecidableEq

/-- `score_comment` (`sentiment.py` lines 21-28), parameterised by the external
analyzer `compoundOf`. -/
def score_comment (compoundOf : String → ℚ) (text : String) : Score :=
  { compound := compoundOf text, label := scoreLabel (compoundOf text) }

/-- One raw comment as extracted from the API response by
`analyze_video_sentiment` (`streamlit_app.py` lines 266-279): the
`textDisplay` and `publishedAt` snippet fields, each defaulting to `""` when
missing. -/
structure CommentItem where
  text : String
  published_at : String
deriving DecidableEq

/-- The extraction filter of `streamlit_app.py` lines 273-277: a comment is kept
only when both its text and its publish timestamp are non-empty (Python
truthiness of the two strings). -/
def filterComments (items : List CommentItem) : List CommentItem :=
  items.filter (fun c => !(c.text == "") && !(c.published_at == ""))

/-- `pub_time.replace(minute=0, second=0, microsecond=0)` on an aware UTC
datetime, expressed on epoch seconds. -/
def hourFloor (t : ℤ) : ℤ := t - t % 3600

/-- The `comment_times` list of `streamlit_app.py` lines 290-296: the parseable
timestamps of the comments, in comment order. -/
def commentTimes (parse : String → Option ℤ) (comments : List CommentItem) : List ℤ :=
  comments.filterMap (fun c => parse c.published_at)

/-- Python `max` over a list of instants (only ever applied to a non-empty
list; the `[]` case is arbitrary). -/
def listMax : List ℤ → ℤ
  | [] => 0
  | t :: ts => ts.foldl max t

/-- The 24 bucket keys of `streamlit_app.py` lines 313-322:
`start_time = most_recent - timedelta(hours=24)` and, for `i = 0..23`,
`(start_time + timedelta(hours=i)).replace(minute=0, second=0, microsecond=0)`,
in construction order. -/
def bucketKeys (mostRecent : ℤ) : List ℤ :=
  (List.range 24).map (fun i : ℕ => hourFloor (mostRecent - 86400 + 3600 * (i : ℤ)))

/-- The contents of the bucket with key `k` after the loop of
`streamlit_app.py` lines 324-334: the compound scores, in comment order, of
the comments whose parseable timestamp has hour-floor `k` (a comment whose
hour-floor is not a dict key is dropped, so evaluating at a key `k` of the
dict yields exactly this list). -/
def bucketScores (compoundOf : String → ℚ) (parse : String → Option ℤ)
    (comments : List CommentItem) (k : ℤ) : List ℚ :=
  comments.filterMap (fun c =>
    match parse c.published_at with
    | some t => if hourFloor t = k then some (compoundOf c.text) else none
    | none => none)

/-- Arithmetic mean `sum(l) / len(l)`. -/
def mean (l : List ℚ) : ℚ := l.sum / (l.length : ℚ)

/-- The `time_series` construction of `streamlit_app.py` lines 309-342:
with no parseable timestamp, `[None] * 24`; otherwise one entry per bucket key
in `sorted(hourly_buckets.keys())` order, the mean of the bucket when the
bucket is non-empty and `None` otherwise.  Python `sorted` is embedded as
`List.insertionSort (· ≤ ·)` (an ascending stable sort). -/
def timeSeries (compoundOf : String → ℚ) (parse : String → Option ℤ)
    (comments : List CommentItem) (times : List ℤ) : List (Option ℚ) :=
  if times = [] then List.replicate 24 none
  else
    (List.insertionSort (· ≤ ·) (bucketKeys (listMax times))).map (fun k =>
      let b := bucketScores compoundOf parse comments k
      if b = [] then none else some (mean b))

/-- The summary dict returned by `analyze_video_sentiment`
(`streamlit_app.py` lines 352-359). -/
structure SentimentSummary where
  avg_sentiment : ℚ
  positive : ℕ
  neutral : ℕ
  negative : ℕ
  total : ℕ
  time_series : List (Option ℚ)
deriving DecidableEq

/-- `analyze_video_sentiment` (`streamlit_app.py` lines 258-359) from the point
where the raw comment items are in hand: empty fetch result returns `None`
(line 262-263); extraction filter (lines 266-279); empty filtered list returns
`None` (lines 281-282); timestamps parsed (lines 290-296); every comment scored
(lines 298-307); the time series built (lines 309-342); the guard
`if not scores` (lines 344-345); and the summary dict (lines 347-359) with
`avg_sentiment` the mean compound over all scores, the three label counts,
`total = len(comment_data)` and the time series. -/
def analyze_video_sentiment (compoundOf : String → ℚ) (parse : String → Option ℤ)
    (comment_items : List CommentItem) : Option SentimentSummary :=
  if comment_items = [] then none
  else
    let comment_data := filterComments comment_items
    if comment_data = [] then none
    else
      let comment_times := commentTimes parse comment_data
      let scores := comment_data.map (fun c => score_comment compoundOf c.text)
      let ts := timeSeries compoundOf parse comment_data comment_times
      if scores = [] then none
      else
        some
          { avg_sentiment := (scores.map (fun s => s.compound)).sum / (scores.length : ℚ)
            positive := scores.countP (fun s => s.label == "positive")
            neutral := scores.countP (fun s => s.label == "neutral")
            negative := scores.countP (fun s => s.label == "negative")
            total := comment_data.length
            time_series := ts }

/-- The trend-direction computation of `generate_overall_analysis`
(`streamlit_app.py` lines 204-227): default `"stable"`; when the time series
is non-empty with more than one entry, the `None` entries are filtered out and,
when at least two valid values remain, the list is split at `len // 2` and the
difference of the two half means decides the direction with threshold `0.05`. -/
def trendDirection (time_series : List (Option ℚ)) : String :=
  if time_series ≠ [] ∧ time_series.length > 1 then
    let valid := time_series.filterMap id
    if valid.length ≥ 2 then
      let mid := valid.length / 2
      let diff := mean (valid.drop mid) - mean (valid.take mid)
      if diff > 5 / 100 then "improving"
      else if diff < -(5 / 100) then "declining"
      else "stable"
    else "stable"
  else "stable"

/-- The outcome of one `execute()` call against the remote API: a successful
response of payload `α`, an `HttpError` with an HTTP status, or any other
exception. -/
inductive Attempt (α : Type) where
  | success (val : α)
  | httpError (status : ℕ)
  | exn
deriving DecidableEq

/-- How a fetch terminates abnormally: a propagated `HttpError` or a propagated
other exception. -/
inductive FetchError where
  | http (status : ℕ)
  | other
deriving DecidableEq

/-- The retryable statuses of `get_trending_videos`
(`youtube_api.py` line 164): `[429, 500, 502, 503, 504]`. -/
def trendingRetryable (s : ℕ) : Bool :=
  s == 429 || s == 500 || s == 502 || s == 503 || s == 504

/-- The `for attempt in range(retries)` loop of `get_trending_videos`
(`youtube_api.py` lines 138-169): success returns the payload; a retryable
`HttpError` sleeps and continues; any other `HttpError` and any other
exception is re-raised.  When the loop exhausts all `retries` iterations the
function body ends with no `return` statement, so Python returns `None`:
modelled as `.ok none`. -/
def trendingLoop {α : Type} (outcome : ℕ → Attempt α) : ℕ → ℕ → Except FetchError (Option α)
  | _, 0 => .ok none
  | attempt, n + 1 =>
    match outcome attempt with
    | .success v => .ok (some v)
    | .httpError s =>
      if trendingRetryable s then trendingLoop outcome (attempt + 1) n
      else .error (.http s)
    | .exn => .error .other

/-- `get_trending_videos` (`youtube_api.py` lines 106-169) reduced to its retry
behaviour, the attempt outcomes abstracted as `outcome`. -/
def get_trending_videos {α : Type} (outcome : ℕ → Attempt α) (retries : ℕ) :
    Except FetchError (Option α) :=
  trendingLoop outcome 0 retries

/-- The per-page retry loop of `get_video_comments`
(`youtube_api.py` lines 199-217): `attempt = 0`; `while attempt <= retries`,
try the request; on `HttpError`, increment `attempt` and re-raise when
`attempt > retries`; otherwise sleep and retry when the status is `429` or in
`[500, 600)`, and re-raise on any other status; any other exception is
re-raised. -/
def commentsRetry {α : Type} (outcome : ℕ → Attempt α) (retries attempt : ℕ) :
    Except FetchError α :=
  match outcome attempt with
  | .success v => .ok v
  | .httpError s =>
    if h : attempt + 1 > retries then .error (.http s)
    else if s == 429 || (500 ≤ s && s < 600) then commentsRetry outcome retries (attempt + 1)
    else .error (.http s)
  | .exn => .error .other
termination_by retries - attempt
decreasing_by omega

/-- The character class `[a-zA-Z0-9_-]` of the video-id patterns in
`extract_video_id` (`youtube_api.py` lines 35-41). -/
def isIdChar (c : Char) : Bool :=
  (97 ≤ c.toNat && c.toNat ≤ 122) || (65 ≤ c.toNat && c.toNat ≤ 90) ||
  (48 ≤ c.toNat && c.toNat ≤ 57) || c == '_' || c == '-'

/-- The ASCII whitespace stripped by Python `str.strip`. -/
def isSpaceChar (c : Char) : Bool :=
  c == ' ' || c == '\t' || c == '\n' || c == '\r' || c.toNat == 11 || c.toNat == 12

/-- Python `str.strip()` on the character list of a string. -/
def pyStrip (s : List Char) : List Char :=
  ((s.dropWhile isSpaceChar).reverse.dropWhile isSpaceChar).reverse

/-- `([a-zA-Z0-9_-]{11})` at the current position: exactly the next 11
characters, all in the id alphabet. -/
def grabId (rest : List Char) : Option (List Char) :=
  let id := rest.take 11
  if id.length == 11 && id.all isIdChar then some id else none

/-- The alternatives of the first pattern of `extract_video_id`
(`youtube_api.py` line 40), in regex alternation order. -/
def p1Alternatives : List (List Char) :=
  ["youtube.com/watch?v=".data, "youtu.be/".data,
   "youtube.com/embed/".data, "youtube.com/v/".data]

/-- Match the first pattern at one start position: the alternation tries each
literal alternative in order and, after it, the 11-character capture. -/
def matchP1At (s : List Char) : Option (List Char) :=
  p1Alternatives.foldr
    (fun p acc =>
      match (if p.isPrefixOf s then grabId (s.drop p.length) else none) with
      | some r => some r
      | none => acc)
    none

/-- `re.search` with the first pattern: leftmost start position that matches. -/
def searchP1 : List Char → Option (List Char)
  | [] => none
  | c :: rest =>
    match matchP1At (c :: rest) with
    | some r => some r
    | none => searchP1 rest

/-- `v=([a-zA-Z0-9_-]{11})` at the current position. -/
def checkVEq (s : List Char) : Option (List Char) :=
  if ['v', '='].isPrefixOf s then grabId (s.drop 2) else none

/-- The greedy `.*v=([a-zA-Z0-9_-]{11})` tail of the second pattern
(`youtube_api.py` line 41): `.*` does not cross a newline and is greedy, so the
rightmost reachable position at which `v=` plus 11 id characters match wins. -/
def greedyVEq : List Char → Option (List Char)
  | [] => none
  | c :: rest =>
    match (if c == '\n' then none else greedyVEq rest) with
    | some r => some r
    | none => checkVEq (c :: rest)

/-- The literal head `youtube\.com\/watch\?` of the second pattern. -/
def p2Head : List Char := "youtube.com/watch?".data

/-- Match the second pattern at one start position. -/
def matchP2At (s : List Char) : Option (List Char) :=
  if p2Head.isPrefixOf s then greedyVEq (s.drop p2Head.length) else none

/-- `re.search` with the second pattern: leftmost start position that matches. -/
def searchP2 : List Char → Option (List Char)
  | [] => none
  | c :: rest =>
    match matchP2At (c :: rest) with
    | some r => some r
    | none => searchP2 rest

/-- `extract_video_id` (`youtube_api.py` lines 15-49): falsy input returns
`None`; a stripped input that fully matches `^[a-zA-Z0-9_-]{11}$` is returned
as is; otherwise the two patterns are searched in order over the unstripped
input and the first match's capture group is returned; otherwise `None`. -/
def extract_video_id (url : String) : Option String :=
  if url == "" then none
  else
    let stripped := pyStrip url.data
    if stripped.length == 11 && stripped.all isIdChar then some (String.mk stripped)
    else
      match searchP1 url.data with
      | some r => some (String.mk r)
      | none =>
        match searchP2 url.data with
        | some r => some (String.mk r)
        | none => none

/-- `s.replace('Z', '+00:00')` (`streamlit_app.py` lines 293 and 328). -/
def zReplace (s : String) : String :=
  String.mk (s.data.flatMap (fun c => if c == 'Z' then "+00:00".data else [c]))

/-- The numeric value of an ASCII digit. -/
def digitVal (c : Char) : Option ℕ :=
  if 48 ≤ c.toNat && c.toNat ≤ 57 then some (c.toNat - 48) else none

/-- Days between the proleptic-Gregorian date `y-m-d` and 1970-01-01 (the
standard civil-from-days algorithm used to embed `datetime` instants as epoch
seconds). -/
def daysFromCivil (y m d : ℤ) : ℤ :=
  let yAdj : ℤ := if m ≤ 2 then y - 1 else y
  let era : ℤ := (if 0 ≤ yAdj then yAdj else yAdj - 399) / 400
  let yoe : ℤ := yAdj - era * 400
  let mp : ℤ := (m + 9) % 12
  let doy : ℤ := (153 * mp + 2) / 5 + d - 1
  let doe : ℤ := yoe * 365 + yoe / 4 - yoe / 100 + doy
  era * 146097 + doe - 719468

/-- Gregorian leap year. -/
def isLeap (y : ℤ) : Bool := (y % 4 == 0 && y % 100 != 0) || y % 400 == 0

/-- Days in a month of a given year. -/
def daysInMonth (y m : ℤ) : ℤ :=
  if m == 2 then (if isLeap y then 29 else 28)
  else if m == 4 || m == 6 || m == 9 || m == 11 then 30 else 31

/-- Modelled from the spec: the external `datetime.fromisoformat` applied after
`replace('Z', '+00:00')` (`streamlit_app.py` line 293), for the UTC timestamp
shape `YYYY-MM-DDTHH:MM:SS` followed by `+00:00` that the API publishes
(originally suffixed `Z`).  A string of any other shape, or with an
out-of-range calendar field, fails to parse (`ValueError` → `none`).  The
result is the instant in epoch seconds. -/
def parseTimestamp (s : String) : Option ℤ :=
  match (zReplace s).data with
  | [y1, y2, y3, y4, '-', mo1, mo2, '-', d1, d2, 'T',
     h1, h2, ':', mi1, mi2, ':', s1, s2, '+', '0', '0', ':', '0', '0'] =>
    match digitVal y1, digitVal y2, digitVal y3, digitVal y4,
          digitVal mo1, digitVal mo2, digitVal d1, digitVal d2,
          digitVal h1, digitVal h2, digitVal mi1, digitVal mi2,
          digitVal s1, digitVal s2 with
    | some a, some b, some c, some d, some e, some f, some g, some h,
      some i, some j, some k, some l, some m, some n =>
      let year : ℤ := (a : ℤ) * 1000 + (b : ℤ) * 100 + (c : ℤ) * 10 + (d : ℤ)
      let month : ℤ := (e : ℤ) * 10 + (f : ℤ)
      let day : ℤ := (g : ℤ) * 10 + (h : ℤ)
      let hour : ℤ := (i : ℤ) * 10 + (j : ℤ)
      let minute : ℤ := (k : ℤ) * 10 + (l : ℤ)
      let second : ℤ := (m : ℤ) * 10 + (n : ℤ)
      if 1 ≤ month ∧ month ≤ 12 ∧ 1 ≤ day ∧ day ≤ daysInMonth year month ∧
          hour ≤ 23 ∧ minute ≤ 59 ∧ second ≤ 59 then
        some (daysFromCivil year month day * 86400 + hour * 3600 + minute * 60 + second)
      else none
    | _, _, _, _, _, _, _, _, _, _, _, _, _, _ => none
  | _ => none

section Lemmas

/-- Shifting an instant by a whole number of hours commutes with the hour
floor. -/
theorem hourFloor_add_hours (t z : ℤ) : hourFloor (t + 3600 * z) = hourFloor t + 3600 * z := by
  unfold hourFloor
  rw [Int.add_mul_emod_self_left]
  ring

/-- Each bucket key is the anchor's hour floor shifted back a whole number of
hours. -/
theorem bucketKey_eq (m : ℤ) (i : ℕ) :
    hourFloor (m - 86400 + 3600 * (i : ℤ)) = hourFloor m + 3600 * ((i : ℤ) - 24) := by
  have h : m - 86400 + 3600 * (i : ℤ) = m + 3600 * ((i : ℤ) - 24) := by ring
  rw [h, hourFloor_add_hours]

/-- Every bucket key lies strictly below the anchor's hour floor. -/
theorem bucketKey_lt (m k : ℤ) (hk : k ∈ bucketKeys m) : k < hourFloor m := by
  rw [bucketKeys, List.mem_map] at hk
  obtain ⟨i, hi, rfl⟩ := hk
  rw [List.mem_range] at hi
  rw [bucketKey_eq]
  have hi24 : (i : ℤ) < 24 := by exact_mod_cast hi
  omega

/-- The anchor's own hour floor is never a bucket key. -/
theorem hourFloor_not_mem_bucketKeys (m : ℤ) : hourFloor m ∉ bucketKeys m := by
  intro h
  exact absurd rfl (ne_of_lt (bucketKey_lt m _ h))

/-- The bucket keys are constructed in strictly increasing order. -/
theorem bucketKeys_pairwise (m : ℤ) : List.Pairwise (· < ·) (bucketKeys m) := by
  unfold bucketKeys
  rw [List.pairwise_map]
  refine (List.pairwise_lt_range 24).imp ?_
  intro a b hab
  rw [bucketKey_eq, bucketKey_eq]
  have : (a : ℤ) < (b : ℤ) := by exact_mod_cast hab
  omega

/-- Sorting the bucket keys leaves them unchanged: they are already in
ascending order. -/
theorem insertionSort_bucketKeys (m : ℤ) :
    List.insertionSort (· ≤ ·) (bucketKeys m) = bucketKeys m :=
  List.Sorted.insertionSort_eq ((bucketKeys_pairwise m).imp le_of_lt)

/-- There are exactly 24 bucket keys. -/
theorem length_bucketKeys (m : ℤ) : (bucketKeys m).length = 24 := by
  simp [bucketKeys]

/-- The time series always has exactly 24 entries. -/
theorem length_timeSeries (compoundOf : String → ℚ) (parse : String → Option ℤ)
    (comments : List CommentItem) (times : List ℤ) :
    (timeSeries compoundOf parse comments times).length = 24 := by
  unfold timeSeries
  split
  · simp
  · rw [List.length_map, List.length_insertionSort, length_bucketKeys]

/-- `listMax` of a list of copies of one value is that value. -/
theorem listMax_all_eq (t0 : ℤ) : ∀ (l : List ℤ), l ≠ [] → (∀ x ∈ l, x = t0) → listMax l = t0 := by
  have aux : ∀ (l : List ℤ) (acc : ℤ), (∀ x ∈ l, x = t0) → acc = t0 → l.foldl max acc = t0 := by
    intro l
    induction l with
    | nil => intro acc _ h2; exact h2
    | cons a l ih =>
      intro acc h1 h2
      have ha : a = t0 := h1 a (by simp)
      simp only [List.foldl_cons]
      exact ih (max acc a) (fun x hx => h1 x (by simp [hx])) (by rw [ha, h2]; exact max_self t0)
  intro l hne hall
  match l with
  | [] => exact absurd rfl hne
  | t :: ts =>
    exact aux ts t (fun x hx => hall x (by simp [hx])) (hall t (by simp))

/-- When every comment parses to the same instant, `commentTimes` is the
constant list of that instant. -/
theorem commentTimes_all_same (parse : String → Option ℤ) (t0 : ℤ) :
    ∀ (l : List CommentItem), (∀ c ∈ l, parse c.published_at = some t0) →
      commentTimes parse l = l.map (fun _ => t0) := by
  intro l
  induction l with
  | nil => intro _; rfl
  | cons a l ih =>
    intro h
    have ha := h a (by simp)
    simp only [commentTimes, List.filterMap_cons, ha, List.map_cons]
    exact congrArg _ (ih (fun c hc => h c (by simp [hc])))

/-- Removing elements that contribute nothing to a `filterMap` does not change
it. -/
theorem filterMap_filter_of_none {α β : Type} (f : α → Option β) (p : α → Bool) :
    ∀ (l : List α), (∀ a ∈ l, p a = false → f a = none) →
      (l.filter p).filterMap f = l.filterMap f := by
  intro l
  induction l with
  | nil => intro _; rfl
  | cons a l ih =>
    intro h
    have hrest : ∀ b ∈ l, p b = false → f b = none := fun b hb => h b (by simp [hb])
    by_cases hp : p a = true
    · simp only [List.filter_cons, hp, if_true, List.filterMap_cons]
      cases f a <;> simp [ih hrest]
    · have hfa : f a = none := h a (by simp) (by simpa using hp)
      simp only [List.filter_cons, hp, if_false, List.filterMap_cons, hfa]
      exact ih hrest

end Lemmas

section NormalForm

/-- Normal form of `analyze_video_sentiment` on an input that survives both
emptiness guards. -/
theorem analyze_eq (compoundOf : String → ℚ) (parse : String → Option ℤ)
    (items : List CommentItem) (h1 : items ≠ []) (h2 : filterComments items ≠ []) :
    analyze_video_sentiment compoundOf parse items = some
      { avg_sentiment := mean ((filterComments items).map (fun c => compoundOf c.text))
        positive := (filterComments items).countP
          (fun c => scoreLabel (compoundOf c.text) == "positive")
        neutral := (filterComments items).countP
          (fun c => scoreLabel (compoundOf c.text) == "neutral")
        negative := (filterComments items).countP
          (fun c => scoreLabel (compoundOf c.text) == "negative")
        total := (filterComments items).length
        time_series := timeSeries compoundOf parse (filterComments items)
          (commentTimes parse (filterComments items)) } := by
  have h3 : (filterComments items).map
      (fun c => ({ compound := compoundOf c.text,
                   label := scoreLabel (compoundOf c.text) } : Score)) ≠ [] := by
    simpa [List.map_eq_nil_iff] using h2
  simp only [analyze_video_sentiment, if_neg h1, if_neg h2, List.map_map,
    List.countP_map, List.length_map, Function.comp_def, score_comment, mean, if_neg h3]

end NormalForm

/-- The label produced by `scoreLabel` is always one of the three categories. -/
theorem scoreLabel_cases (q : ℚ) :
    scoreLabel q = "positive" ∨ scoreLabel q = "neutral" ∨ scoreLabel q = "negative" := by
  unfold scoreLabel
  split_ifs <;> simp

/-- The three label counts over any comment list partition its length. -/
theorem countP_label_partition (l : List CommentItem) (f : CommentItem → ℚ) :
    l.countP (fun c => scoreLabel (f c) == "positive") +
      l.countP (fun c => scoreLabel (f c) == "neutral") +
      l.countP (fun c => scoreLabel (f c) == "negative") = l.length := by
  induction l with
  | nil => rfl
  | cons a l ih =>
    simp only [List.countP_cons, List.length_cons]
    rcases scoreLabel_cases (f a) with h | h | h <;> simp [h] <;> omega

/-- C8: the scorer's label is `"positive"` iff `compound ≥ 0.05`, `"negative"`
iff `compound ≤ -0.05`, and `"neutral"` otherwise; at the boundaries,
`compound = 0.05` yields `"positive"` and `compound = -0.05` yields
`"negative"`. -/
theorem score_comment_label_thresholds (compoundOf : String → ℚ) (text : String) :
    ((score_comment compoundOf text).label = "positive" ↔
      THRESH_POS ≤ (score_comment compoundOf text).compound) ∧
    ((score_comment compoundOf text).label = "negative" ↔
      (score_comment compoundOf text).compound ≤ THRESH_NEG) ∧
    ((score_comment compoundOf text).label = "neutral" ↔
      ((score_comment compoundOf text).compound < THRESH_POS ∧
        THRESH_NEG < (score_comment compoundOf text).compound)) ∧
    scoreLabel THRESH_POS = "positive" ∧ scoreLabel THRESH_NEG = "negative" := by
  have key : ∀ q : ℚ, (scoreLabel q = "positive" ↔ THRESH_POS ≤ q) ∧
      (scoreLabel q = "negative" ↔ q ≤ THRESH_NEG) ∧
      (scoreLabel q = "neutral" ↔ (q < THRESH_POS ∧ THRESH_NEG < q)) := by
    intro q
    unfold scoreLabel
    split_ifs with h1 h2
    · refine ⟨iff_of_true rfl h1, iff_of_false (by decide) ?_, iff_of_false (by decide) ?_⟩
      · intro h
        exact absurd (le_trans h1 h) (by norm_num [THRESH_POS, THRESH_NEG])
      · intro h
        exact absurd h1 (not_le_of_lt h.1)
    · refine ⟨iff_of_false (by decide) h1, iff_of_true rfl h2, iff_of_false (by decide) ?_⟩
      intro h
      exact absurd h2 (not_le_of_lt h.2)
    · exact ⟨iff_of_false (by decide) h1, iff_of_false (by decide) h2,
        iff_of_true rfl ⟨not_le.mp h1, not_le.mp h2⟩⟩
  exact ⟨(key _).1, (key _).2.1, (key _).2.2,
    by norm_num [scoreLabel, THRESH_POS, THRESH_NEG],
    by norm_num [scoreLabel, THRESH_POS, THRESH_NEG]⟩

/-- C10: `extract_video_id` recovers the id from a short url, a watch url and a
bare id, and returns `none` on a non-url. -/
theorem extract_video_id_examples :
    extract_video_id "https://youtu.be/dQw4w9WgXcQ" = some "dQw4w9WgXcQ" ∧
    extract_video_id "https://www.youtube.com/watch?v=dQw4w9WgXcQ" = some "dQw4w9WgXcQ" ∧
    extract_video_id "dQw4w9WgXcQ" = some "dQw4w9WgXcQ" ∧
    extract_video_id "not a url" = none := by
  refine ⟨?_, ?_, ?_, ?_⟩ <;> decide

/-- C9: when every attempt fails with a retryable status (429 or 5xx),
`get_video_comments`'s per-page loop propagates the `HttpError` after
exhausting its retries, but `get_trending_videos` falls off the end of its
retry loop and returns `None` — a normal absent result, not an error — in
contradiction with its own docstring (`youtube_api.py` lines 124-125:
"Raises: HttpError: If API request fails after retries"). -/
theorem retry_exhaustion_behaviour :
    get_trending_videos (fun _ => (Attempt.httpError 429 : Attempt Unit)) 3 = .ok none ∧
    get_trending_videos (fun _ => (Attempt.httpError 503 : Attempt Unit)) 3 = .ok none ∧
    commentsRetry (fun _ => (Attempt.httpError 429 : Attempt Unit)) 3 0 =
      .error (.http 429) ∧
    commentsRetry (fun _ => (Attempt.httpError 503 : Attempt Unit)) 3 0 =
      .error (.http 503) :=
  ⟨rfl, rfl, by simp [commentsRetry], by simp [commentsRetry]⟩

/-- C5: the aggregator returns an absent result on an empty comment list, and
on any list in which every comment lacks a text body or a publish timestamp;
it never returns a zero-filled summary. -/
theorem analyze_absent_on_empty_or_invalid (compoundOf : String → ℚ)
    (parse : String → Option ℤ) :
    analyze_video_sentiment compoundOf parse [] = none ∧
    ∀ items : List CommentItem, (∀ c ∈ items, c.text = "" ∨ c.published_at = "") →
      analyze_video_sentiment compoundOf parse items = none := by
  constructor
  · rfl
  · intro items h
    by_cases h1 : items = []
    · subst h1
      rfl
    · have h2 : filterComments items = [] := by
        rw [filterComments, List.filter_eq_nil_iff]
        intro c hc
        rcases h c hc with ht | hp
        · simp [ht]
        · simp [hp]
      simp [analyze_video_sentiment, h1, h2]

/-- Witness for C5 at a concrete two-comment list, one missing its text and
one missing its timestamp. -/
theorem analyze_absent_on_empty_or_invalid_witness :
    (∀ c ∈ ([{ text := "", published_at := "2024-05-01T10:30:00Z" },
             { text := "hey", published_at := "" }] : List CommentItem),
        c.text = "" ∨ c.published_at = "") ∧
    analyze_video_sentiment (fun _ => 0) parseTimestamp
      [{ text := "", published_at := "2024-05-01T10:30:00Z" },
       { text := "hey", published_at := "" }] = none :=
  ⟨by decide, (analyze_absent_on_empty_or_invalid (fun _ => 0) parseTimestamp).2 _ (by decide)⟩

/-- C4: any summary the aggregator returns satisfies
`positive + neutral + negative = total`. -/
theorem analyze_counts_partition (compoundOf : String → ℚ) (parse : String → Option ℤ)
    (items : List CommentItem) (s : SentimentSummary)
    (h : analyze_video_sentiment compoundOf parse items = some s) :
    s.positive + s.neutral + s.negative = s.total := by
  by_cases h1 : items = []
  · rw [h1] at h
    exact absurd h (by simp [analyze_video_sentiment])
  · by_cases h2 : filterComments items = []
    · exact absurd h (by simp [analyze_video_sentiment, h1, h2])
    · rw [analyze_eq compoundOf parse items h1 h2] at h
      injection h with h
      subst h
      exact countP_label_partition _ _

/-- Witness for C4 at a concrete singleton comment list. -/
theorem analyze_counts_partition_witness :
    analyze_video_sentiment (fun _ => 1 / 2) (fun _ => none)
        [{ text := "good", published_at := "ts" }] = some
      { avg_sentiment := 1 / 2, positive := 1, neutral := 0, negative := 0,
        total := 1, time_series := List.replicate 24 none } ∧
    (1 : ℕ) + 0 + 0 = 1 := by
  have heq : analyze_video_sentiment (fun _ => 1 / 2) (fun _ => none)
      [{ text := "good", published_at := "ts" }] = some
      { avg_sentiment := 1 / 2, positive := 1, neutral := 0, negative := 0,
        total := 1, time_series := List.replicate 24 none } := by
    have hf : filterComments [{ text := "good", published_at := "ts" }] =
        [{ text := "good", published_at := "ts" }] := by decide
    rw [analyze_eq (fun _ => 1 / 2) (fun _ => none) _ (by decide) (by decide), hf]
    norm_num [commentTimes, timeSeries, mean, scoreLabel, THRESH_POS, THRESH_NEG,
      List.countP_cons, List.countP_nil, List.filterMap_cons]
    exact ⟨by decide, by decide⟩
  exact ⟨heq, analyze_counts_partition (fun _ => 1 / 2) (fun _ => none)
    [{ text := "good", published_at := "ts" }]
    { avg_sentiment := 1 / 2, positive := 1, neutral := 0, negative := 0,
      total := 1, time_series := List.replicate 24 none } heq⟩

/-- C7: the narrative's trend direction is decided by splitting the valid
(non-`None`) time-series values at their count's midpoint and comparing half
means against the `0.05` threshold; with fewer than 2 valid values it is
`"stable"` by default. -/
theorem trendDirection_halves (ts : List (Option ℚ)) :
    ((ts.filterMap id).length < 2 → trendDirection ts = "stable") ∧
    (2 ≤ (ts.filterMap id).length →
      ((trendDirection ts = "improving" ↔
          mean ((ts.filterMap id).drop ((ts.filterMap id).length / 2)) -
            mean ((ts.filterMap id).take ((ts.filterMap id).length / 2)) > 5 / 100) ∧
       (trendDirection ts = "declining" ↔
          mean ((ts.filterMap id).drop ((ts.filterMap id).length / 2)) -
            mean ((ts.filterMap id).take ((ts.filterMap id).length / 2)) < -(5 / 100)) ∧
       (trendDirection ts = "stable" ↔
          (¬ (mean ((ts.filterMap id).drop ((ts.filterMap id).length / 2)) -
                mean ((ts.filterMap id).take ((ts.filterMap id).length / 2)) > 5 / 100) ∧
           ¬ (mean ((ts.filterMap id).drop ((ts.filterMap id).length / 2)) -
                mean ((ts.filterMap id).take ((ts.filterMap id).length / 2)) < -(5 / 100)))))) := by
  constructor
  · intro h
    simp only [trendDirection]
    split_ifs <;> first | rfl | omega
  · intro h
    have hlen : (ts.filterMap id).length ≤ ts.length := List.length_filterMap_le id ts
    have hts : ts.length > 1 := by omega
    have hne : ts ≠ [] := by
      intro h0
      rw [h0] at hts
      simp at hts
    simp only [trendDirection]
    rw [if_pos ⟨hne, hts⟩, if_pos h]
    split_ifs with hd1 hd2
    · refine ⟨iff_of_true rfl hd1, iff_of_false (by decide) ?_, iff_of_false (by decide) ?_⟩
      · intro hlt
        linarith
      · intro hc
        exact hc.1 hd1
    · refine ⟨iff_of_false (by decide) hd1, iff_of_true rfl hd2, iff_of_false (by decide) ?_⟩
      intro hc
      exact hc.2 hd2
    · exact ⟨iff_of_false (by decide) hd1, iff_of_false (by decide) hd2,
        iff_of_true rfl ⟨hd1, hd2⟩⟩

/-- Witness for C7: two valid ascending values give direction `"improving"`. -/
theorem trendDirection_halves_witness :
    2 ≤ (([some 0, some 1] : List (Option ℚ)).filterMap id).length ∧
    trendDirection [some 0, some 1] = "improving" :=
  ⟨by decide, (((trendDirection_halves [some 0, some 1]).2 (by decide)).1).mpr
    (by norm_num [mean, List.filterMap_cons])⟩

/-- The time series is insensitive to comments whose timestamp is unparseable
or whose hour-floor is not one of the 24 bucket keys: restricting the comment
list to the in-window parseable comments leaves every bucket, and hence the
whole series, unchanged. -/
theorem timeSeries_filter_inWindow (compoundOf : String → ℚ) (parse : String → Option ℤ)
    (comments : List CommentItem) (times : List ℤ) :
    timeSeries compoundOf parse
      (comments.filter (fun c =>
        match parse c.published_at with
        | some t => decide (hourFloor t ∈ bucketKeys (listMax times))
        | none => false))
      times = timeSeries compoundOf parse comments times := by
  unfold timeSeries
  split
  · rfl
  · refine List.map_congr_left ?_
    intro k hk
    have hk2 : k ∈ bucketKeys (listMax times) := (List.mem_insertionSort _).mp hk
    have hb : bucketScores compoundOf parse
        (comments.filter (fun c =>
          match parse c.published_at with
          | some t => decide (hourFloor t ∈ bucketKeys (listMax times))
          | none => false))
        k = bucketScores compoundOf parse comments k := by
      unfold bucketScores
      refine filterMap_filter_of_none _ _ comments ?_
      intro c _ hp
      cases hc : parse c.published_at with
      | none => rfl
      | some t =>
        simp only [hc] at hp
        have hmem : hourFloor t ∉ bucketKeys (listMax times) := of_decide_eq_false hp
        have hne2 : hourFloor t ≠ k := by
          intro heq
          rw [heq] at hmem
          exact hmem hk2
        simp only [hc, if_neg hne2]
    simp only [hb]

/-- C6: `avg_sentiment` and the category counts of a returned summary are
computed over all filtered comments — including those with unparseable or
out-of-window timestamps — while the time series depends only on the comments
whose parseable timestamp falls on one of the 24 bucket keys; with no
parseable timestamp at all the series is 24 `None` slots but the totals are
still over all comments. -/
theorem analyze_totals_over_all (compoundOf : String → ℚ) (parse : String → Option ℤ)
    (items : List CommentItem) (s : SentimentSummary)
    (h : analyze_video_sentiment compoundOf parse items = some s) :
    s.avg_sentiment = mean ((filterComments items).map (fun c => compoundOf c.text)) ∧
    s.positive = (filterComments items).countP
      (fun c => scoreLabel (compoundOf c.text) == "positive") ∧
    s.neutral = (filterComments items).countP
      (fun c => scoreLabel (compoundOf c.text) == "neutral") ∧
    s.negative = (filterComments items).countP
      (fun c => scoreLabel (compoundOf c.text) == "negative") ∧
    s.total = (filterComments items).length ∧
    (commentTimes parse (filterComments items) = [] →
      s.time_series = List.replicate 24 none) ∧
    s.time_series = timeSeries compoundOf parse
      ((filterComments items).filter (fun c =>
        match parse c.published_at with
        | some t => decide (hourFloor t ∈
            bucketKeys (listMax (commentTimes parse (filterComments items))))
        | none => false))
      (commentTimes parse (filterComments items)) := by
  by_cases h1 : items = []
  · rw [h1] at h
    exact absurd h (by simp [analyze_video_sentiment])
  · by_cases h2 : filterComments items = []
    · exact absurd h (by simp [analyze_video_sentiment, h1, h2])
    · rw [analyze_eq compoundOf parse items h1 h2] at h
      injection h with h
      subst h
      refine ⟨rfl, rfl, rfl, rfl, rfl, ?_, ?_⟩
      · intro htimes
        show timeSeries compoundOf parse (filterComments items)
          (commentTimes parse (filterComments items)) = List.replicate 24 none
        rw [htimes]
        rfl
      · exact (timeSeries_filter_inWindow compoundOf parse (filterComments items)
          (commentTimes parse (filterComments items))).symm

/-- Witness for C6 at a concrete singleton comment list with an unparseable
timestamp: the series is 24 `None` slots, the totals still cover the comment. -/
theorem analyze_totals_over_all_witness :
    analyze_video_sentiment (fun _ => 1 / 2) (fun _ => none)
        [{ text := "good", published_at := "ts" }] = some
      { avg_sentiment := 1 / 2, positive := 1, neutral := 0, negative := 0,
        total := 1, time_series := List.replicate 24 none } ∧
    ((1 / 2 : ℚ) = mean ((filterComments [{ text := "good", published_at := "ts" }]).map
        (fun _ => 1 / 2)) ∧
     (1 : ℕ) = (filterComments [{ text := "good", published_at := "ts" }]).countP
        (fun _ => scoreLabel (1 / 2) == "positive") ∧
     (0 : ℕ) = (filterComments [{ text := "good", published_at := "ts" }]).countP
        (fun _ => scoreLabel (1 / 2) == "neutral") ∧
     (0 : ℕ) = (filterComments [{ text := "good", published_at := "ts" }]).countP
        (fun _ => scoreLabel (1 / 2) == "negative") ∧
     (1 : ℕ) = (filterComments [{ text := "good", published_at := "ts" }]).length ∧
     (commentTimes (fun _ => none) (filterComments [{ text := "good", published_at := "ts" }]) = [] →
       List.replicate 24 (none : Option ℚ) = List.replicate 24 none) ∧
     List.replicate 24 (none : Option ℚ) = timeSeries (fun _ => 1 / 2) (fun _ => none)
       ((filterComments [{ text := "good", published_at := "ts" }]).filter (fun _ => false))
       (commentTimes (fun _ => none) (filterComments [{ text := "good", published_at := "ts" }]))) := by
  have heq : analyze_video_sentiment (fun _ => 1 / 2) (fun _ => none)
      [{ text := "good", published_at := "ts" }] = some
      { avg_sentiment := 1 / 2, positive := 1, neutral := 0, negative := 0,
        total := 1, time_series := List.replicate 24 none } := by
    have hf : filterComments [{ text := "good", published_at := "ts" }] =
        [{ text := "good", published_at := "ts" }] := by decide
    rw [analyze_eq (fun _ => 1 / 2) (fun _ => none) _ (by decide) (by decide), hf]
    norm_num [commentTimes, timeSeries, mean, scoreLabel, THRESH_POS, THRESH_NEG,
      List.countP_cons, List.countP_nil, List.filterMap_cons]
    exact ⟨by decide, by decide⟩
  exact ⟨heq, analyze_totals_over_all (fun _ => 1 / 2) (fun _ => none)
    [{ text := "good", published_at := "ts" }]
    { avg_sentiment := 1 / 2, positive := 1, neutral := 0, negative := 0,
      total := 1, time_series := List.replicate 24 none } heq⟩

/-- C3: on any input that passes filtering, the aggregator returns a summary
whose time series has exactly 24 entries; with no parseable timestamp it is 24
`None` slots, and otherwise it is the bucket averages taken along a strictly
ascending (chronological) list of hour keys. -/
theorem analyze_time_series_shape (compoundOf : String → ℚ) (parse : String → Option ℤ)
    (items : List CommentItem) (h1 : items ≠ []) (h2 : filterComments items ≠ []) :
    ((analyze_video_sentiment compoundOf parse items).map (fun s => s.time_series.length)
      = some 24) ∧
    (commentTimes parse (filterComments items) = [] →
      (analyze_video_sentiment compoundOf parse items).map (fun s => s.time_series)
        = some (List.replicate 24 none)) ∧
    (commentTimes parse (filterComments items) ≠ [] →
      ∃ ks : List ℤ, List.Pairwise (· < ·) ks ∧
        (analyze_video_sentiment compoundOf parse items).map (fun s => s.time_series)
          = some (ks.map (fun k =>
              if bucketScores compoundOf parse (filterComments items) k = [] then none
              else some (mean (bucketScores compoundOf parse (filterComments items) k))))) := by
  rw [analyze_eq compoundOf parse items h1 h2]
  refine ⟨?_, ?_, ?_⟩
  · show some ((timeSeries compoundOf parse (filterComments items)
      (commentTimes parse (filterComments items))).length) = some 24
    rw [length_timeSeries]
  · intro htimes
    show some (timeSeries compoundOf parse (filterComments items)
      (commentTimes parse (filterComments items))) = some (List.replicate 24 none)
    rw [htimes]
    rfl
  · intro htimes
    refine ⟨bucketKeys (listMax (commentTimes parse (filterComments items))),
      bucketKeys_pairwise _, ?_⟩
    show some (timeSeries compoundOf parse (filterComments items)
      (commentTimes parse (filterComments items))) = some _
    unfold timeSeries
    rw [if_neg htimes, insertionSort_bucketKeys]

/-- Witness for C3 at a concrete singleton comment list whose timestamp
parses. -/
theorem analyze_time_series_shape_witness :
    ([{ text := "a", published_at := "t" }] : List CommentItem) ≠ [] ∧
    filterComments [{ text := "a", published_at := "t" }] ≠ [] ∧
    (((analyze_video_sentiment (fun _ => 0) (fun _ => some 0)
        [{ text := "a", published_at := "t" }]).map (fun s => s.time_series.length)
      = some 24) ∧
    (commentTimes (fun _ => some 0) (filterComments [{ text := "a", published_at := "t" }]) = [] →
      (analyze_video_sentiment (fun _ => 0) (fun _ => some 0)
        [{ text := "a", published_at := "t" }]).map (fun s => s.time_series)
        = some (List.replicate 24 none)) ∧
    (commentTimes (fun _ => some 0) (filterComments [{ text := "a", published_at := "t" }]) ≠ [] →
      ∃ ks : List ℤ, List.Pairwise (· < ·) ks ∧
        (analyze_video_sentiment (fun _ => 0) (fun _ => some 0)
          [{ text := "a", published_at := "t" }]).map (fun s => s.time_series)
          = some (ks.map (fun k =>
              if bucketScores (fun _ => 0) (fun _ => some 0)
                  (filterComments [{ text := "a", published_at := "t" }]) k = [] then none
              else some (mean (bucketScores (fun _ => 0) (fun _ => some 0)
                  (filterComments [{ text := "a", published_at := "t" }]) k)))))) :=
  ⟨by decide, by decide, analyze_time_series_shape (fun _ => 0) (fun _ => some 0)
    [{ text := "a", published_at := "t" }] (by decide) (by decide)⟩

/-- C2: the 24 bucket keys are the hour-floors of
`most_recent − 24h + k·1h` for `k = 0..23`; none of them equals the hour-floor
of the most recent timestamp itself, so every comment published in the anchor
clock hour (the most recent comment included) is assigned to no bucket —
dropping all such comments changes no bucket — although each still contributes
to `avg_sentiment` and the category counts. -/
theorem anchor_hour_excluded (compoundOf : String → ℚ) (parse : String → Option ℤ)
    (items : List CommentItem)
    (h : commentTimes parse (filterComments items) ≠ []) :
    (bucketKeys (listMax (commentTimes parse (filterComments items))) =
      (List.range 24).map (fun i : ℕ =>
        hourFloor (listMax (commentTimes parse (filterComments items)) - 86400 +
          3600 * (i : ℤ)))) ∧
    (hourFloor (listMax (commentTimes parse (filterComments items))) ∉
      bucketKeys (listMax (commentTimes parse (filterComments items)))) ∧
    (∀ k ∈ bucketKeys (listMax (commentTimes parse (filterComments items))),
      bucketScores compoundOf parse
        ((filterComments items).filter (fun c =>
          match parse c.published_at with
          | some t => decide (hourFloor t ≠
              hourFloor (listMax (commentTimes parse (filterComments items))))
          | none => true))
        k = bucketScores compoundOf parse (filterComments items) k) ∧
    (∃ s, analyze_video_sentiment compoundOf parse items = some s ∧
      s.total = (filterComments items).length ∧
      s.avg_sentiment = mean ((filterComments items).map (fun c => compoundOf c.text)) ∧
      s.positive = (filterComments items).countP
        (fun c => scoreLabel (compoundOf c.text) == "positive") ∧
      s.neutral = (filterComments items).countP
        (fun c => scoreLabel (compoundOf c.text) == "neutral") ∧
      s.negative = (filterComments items).countP
        (fun c => scoreLabel (compoundOf c.text) == "negative")) := by
  have h2 : filterComments items ≠ [] := by
    intro h0
    rw [h0] at h
    exact h rfl
  have h1 : items ≠ [] := by
    intro h0
    rw [h0] at h2
    exact h2 rfl
  refine ⟨rfl, hourFloor_not_mem_bucketKeys _, ?_, ?_⟩
  · intro k hk
    unfold bucketScores
    refine filterMap_filter_of_none _ _ (filterComments items) ?_
    intro c _ hp
    cases hc : parse c.published_at with
    | none =>
      rw [hc] at hp
    | some t =>
      simp only [hc] at hp
      have heqfloor : hourFloor t =
          hourFloor (listMax (commentTimes parse (filterComments items))) := by
        have := of_decide_eq_false hp
        exact not_ne_iff.mp this
      have hlt := bucketKey_lt _ _ hk
      have hne2 : hourFloor t ≠ k := by
        rw [heqfloor]
        exact fun heq => absurd heq.symm (ne_of_lt hlt)
      simp only [hc, if_neg hne2]
  · exact ⟨_, analyze_eq compoundOf parse items h1 h2, rfl, rfl, rfl, rfl, rfl⟩

/-- Witness for C2 at a concrete singleton comment list whose timestamp
parses to instant 7200. -/
theorem anchor_hour_excluded_witness :
    commentTimes (fun _ => some 7200) (filterComments
      [{ text := "a", published_at := "t" }]) ≠ [] ∧
    ((bucketKeys (listMax (commentTimes (fun _ => some 7200) (filterComments
        [{ text := "a", published_at := "t" }]))) =
      (List.range 24).map (fun i : ℕ =>
        hourFloor (listMax (commentTimes (fun _ => some 7200) (filterComments
          [{ text := "a", published_at := "t" }])) - 86400 + 3600 * (i : ℤ)))) ∧
    (hourFloor (listMax (commentTimes (fun _ => some 7200) (filterComments
        [{ text := "a", published_at := "t" }]))) ∉
      bucketKeys (listMax (commentTimes (fun _ => some 7200) (filterComments
        [{ text := "a", published_at := "t" }])))) ∧
    (∀ k ∈ bucketKeys (listMax (commentTimes (fun _ => some 7200) (filterComments
        [{ text := "a", published_at := "t" }]))),
      bucketScores (fun _ => 0) (fun _ => some 7200)
        ((filterComments [{ text := "a", published_at := "t" }]).filter (fun _ =>
          match (some 7200 : Option ℤ) with
          | some t => decide (hourFloor t ≠
              hourFloor (listMax (commentTimes (fun _ => some 7200) (filterComments
                [{ text := "a", published_at := "t" }]))))
          | none => true))
        k = bucketScores (fun _ => 0) (fun _ => some 7200)
          (filterComments [{ text := "a", published_at := "t" }]) k) ∧
    (∃ s, analyze_video_sentiment (fun _ => 0) (fun _ => some 7200)
        [{ text := "a", published_at := "t" }] = some s ∧
      s.total = (filterComments [{ text := "a", published_at := "t" }]).length ∧
      s.avg_sentiment = mean ((filterComments
        [{ text := "a", published_at := "t" }]).map (fun _ => 0)) ∧
      s.positive = (filterComments [{ text := "a", published_at := "t" }]).countP
        (fun _ => scoreLabel 0 == "positive") ∧
      s.neutral = (filterComments [{ text := "a", published_at := "t" }]).countP
        (fun _ => scoreLabel 0 == "neutral") ∧
      s.negative = (filterComments [{ text := "a", published_at := "t" }]).countP
        (fun _ => scoreLabel 0 == "negative"))) :=
  ⟨by decide, anchor_hour_excluded (fun _ => 0) (fun _ => some 7200)
    [{ text := "a", published_at := "t" }] (by decide)⟩

/-- C1 counterexample: on a non-empty comment list in which every comment has
the same parseable timestamp (`2024-05-01T10:30:00Z`, instant 1714559400), the
returned time series has 0 populated slots and 24 "no data" slots — not 1
populated and 23 "no data" as claimed: the shared hour is the anchor hour,
which is not among the 24 bucket keys. -/
theorem analyze_same_timestamp_claim_counterexample :
    (analyze_video_sentiment (fun _ => 3 / 10) parseTimestamp
        [{ text := "nice", published_at := "2024-05-01T10:30:00Z" },
         { text := "wow", published_at := "2024-05-01T10:30:00Z" }]).map
      (fun s => (s.time_series.countP (fun o => o.isSome),
                 s.time_series.countP (fun o => o.isNone))) = some (0, 24) := by
  decide

/-- C1 amended: for every non-empty comment list with all fields present in
which every comment has the same parseable timestamp, the aggregator returns a
time series of 24 slots, all of which are "no data". -/
theorem analyze_same_timestamp_all_no_data (compoundOf : String → ℚ)
    (parse : String → Option ℤ) (items : List CommentItem) (t0 : ℤ)
    (h1 : items ≠ [])
    (h2 : ∀ c ∈ items, c.text ≠ "" ∧ c.published_at ≠ "")
    (h3 : ∀ c ∈ items, parse c.published_at = some t0) :
    ∃ s, analyze_video_sentiment compoundOf parse items = some s ∧
      s.time_series = List.replicate 24 none := by
  have hf : filterComments items = items := by
    rw [filterComments, List.filter_eq_self]
    intro c hc
    have hc2 := h2 c hc
    simp [hc2.1, hc2.2]
  have h2f : filterComments items ≠ [] := by
    rw [hf]
    exact h1
  have hct : commentTimes parse items = items.map (fun _ => t0) :=
    commentTimes_all_same parse t0 items h3
  have hctne : commentTimes parse items ≠ [] := by
    rw [hct]
    simpa [List.map_eq_nil_iff] using h1
  have hmax : listMax (commentTimes parse items) = t0 := by
    refine listMax_all_eq t0 _ hctne ?_
    intro x hx
    rw [hct, List.mem_map] at hx
    obtain ⟨a, _, rfl⟩ := hx
    rfl
  have hts : timeSeries compoundOf parse items (commentTimes parse items) =
      List.replicate 24 none := by
    unfold timeSeries
    rw [if_neg hctne, hmax, insertionSort_bucketKeys]
    rw [List.eq_replicate_iff]
    constructor
    · rw [List.length_map, length_bucketKeys]
    · intro b hb
      rw [List.mem_map] at hb
      obtain ⟨k, hk, rfl⟩ := hb
      have hempty : bucketScores compoundOf parse items k = [] := by
        rw [bucketScores, List.filterMap_eq_nil_iff]
        intro c hc
        rw [h3 c hc]
        have hlt := bucketKey_lt t0 k hk
        have hne2 : hourFloor t0 ≠ k := fun he => absurd he.symm (ne_of_lt hlt)
        simp [hne2]
      simp [hempty]
  refine ⟨_, analyze_eq compoundOf parse items h1 h2f, ?_⟩
  show timeSeries compoundOf parse (filterComments items)
    (commentTimes parse (filterComments items)) = _
  rw [hf, hts]

/-- Witness for the amended C1 at a concrete singleton comment list. -/
theorem analyze_same_timestamp_all_no_data_witness :
    (([{ text := "nice", published_at := "2024-05-01T10:30:00Z" }] : List CommentItem) ≠ [] ∧
     (∀ c ∈ ([{ text := "nice", published_at := "2024-05-01T10:30:00Z" }] : List CommentItem),
        c.text ≠ "" ∧ c.published_at ≠ "") ∧
     (∀ c ∈ ([{ text := "nice", published_at := "2024-05-01T10:30:00Z" }] : List CommentItem),
        parseTimestamp c.published_at = some 1714559400)) ∧
    (∃ s, analyze_video_sentiment (fun _ => 3 / 10) parseTimestamp
        [{ text := "nice", published_at := "2024-05-01T10:30:00Z" }] = some s ∧
      s.time_series = List.replicate 24 none) :=
  ⟨⟨by decide, by decide, by decide⟩,
    analyze_same_timestamp_all_no_data (fun _ => 3 / 10) parseTimestamp
      [{ text := "nice", published_at := "2024-05-01T10:30:00Z" }] 1714559400
      (by decide) (by decide) (by decide)⟩
